import Mathlib

/-!
Shallow embedding of `src/tsk/hashdb/tsk_hashdb.c` (The Sleuth Kit hash
database dispatch layer): format detection, the open router, the caller-facing
query operations, and the transaction manager.  The per-backend parsers
(`nsrl_test`, `md5sum_test`, `encase_test`, `hk_test`,
`sqlite_hdb_is_sqlite_file`, the backend constructors) live outside this file's
source and are treated as external collaborators: a candidate file is
abstracted by the outcome each sniff test would report on it, and the amount of
stream each test consumes is an arbitrary parameter.
-/

namespace TskHashDb

/-- `TSK_HDB_DBTYPE_ENUM` of the hash database library. -/
inductive DbType where
  | invalid   -- TSK_HDB_DBTYPE_INVALID_ID
  | nsrl      -- TSK_HDB_DBTYPE_NSRL_ID
  | md5sum    -- TSK_HDB_DBTYPE_MD5SUM_ID
  | hk        -- TSK_HDB_DBTYPE_HK_ID
  | idxonly   -- TSK_HDB_DBTYPE_IDXONLY_ID
  | encase    -- TSK_HDB_DBTYPE_ENCASE_ID
  | sqlite    -- TSK_HDB_DBTYPE_SQLITE_ID
deriving DecidableEq, Repr

/-- Error kinds (`TSK_ERR_HDB_*`) this dispatch layer sets. -/
inductive ErrKind where
  | arg      -- TSK_ERR_HDB_ARG
  | unktype  -- TSK_ERR_HDB_UNKTYPE
  | open_failure  -- TSK_ERR_HDB_OPEN
  | proc     -- TSK_ERR_HDB_PROC
deriving DecidableEq, Repr

/-- The structured (kind, message) pair deposited in the process-wide error
state by `tsk_error_set_errno` / `tsk_error_set_errstr`. -/
structure TskError where
  errno : ErrKind
  errstr : String
deriving DecidableEq, Repr

/-- A candidate database file, abstracted by what each external sniff test
reports on it.  The sniff tests themselves (`sqlite_hdb_is_sqlite_file`,
`nsrl_test`, `md5sum_test`, `encase_test`, `hk_test`) are collaborators outside
`tsk_hashdb.c`; their verdict on a given file is a fixed boolean. -/
structure HdbFile where
  isSqliteFile : Bool
  nsrlMatch : Bool
  md5sumMatch : Bool
  encaseMatch : Bool
  hkMatch : Bool
deriving DecidableEq, Repr

/-- An open `FILE *` on a candidate database file: the file plus the current
stream position. -/
structure FileHandle where
  file : HdbFile
  pos : Nat
deriving DecidableEq, Repr

/-- Stream positions at which each sniff test leaves the handle (each test
reads an arbitrary amount of the file before returning). -/
structure SniffEffects where
  sqlitePos : Nat
  nsrlPos : Nat
  md5sumPos : Nat
  encasePos : Nat
  hkPos : Nat
deriving DecidableEq, Repr

/-- `fseeko(hDb, 0, SEEK_SET)`. -/
def fseekStart (h : FileHandle) : FileHandle :=
  { h with pos := 0 }

/-- `hdb_determine_db_type` (tsk_hashdb.c lines 39-85): sniffs the opened file
and returns the detected type together with the final handle state.  The
SQLite header check runs first and returns immediately on a match; the four
text-format tests then each run from the start of the stream, and a second
match rejects the file as ambiguous. -/
def hdb_determine_db_type (eff : SniffEffects) (h0 : FileHandle) :
    DbType × FileHandle :=
  -- sqlite_hdb_is_sqlite_file(hDb)
  let h := { h0 with pos := eff.sqlitePos }
  if h.file.isSqliteFile then
    (DbType.sqlite, fseekStart h)
  else
    let h := fseekStart h
    -- nsrl_test(hDb)
    let h := { h with pos := eff.nsrlPos }
    let db_type := if h.file.nsrlMatch then DbType.nsrl else DbType.invalid
    let h := fseekStart h
    -- md5sum_test(hDb)
    let h := { h with pos := eff.md5sumPos }
    if h.file.md5sumMatch ∧ db_type ≠ DbType.invalid then
      (DbType.invalid, fseekStart h)
    else
      let db_type := if h.file.md5sumMatch then DbType.md5sum else db_type
      let h := fseekStart h
      -- encase_test(hDb)
      let h := { h with pos := eff.encasePos }
      if h.file.encaseMatch ∧ db_type ≠ DbType.invalid then
        (DbType.invalid, fseekStart h)
      else
        let db_type := if h.file.encaseMatch then DbType.encase else db_type
        let h := fseekStart h
        -- hk_test(hDb)
        let h := { h with pos := eff.hkPos }
        if h.file.hkMatch ∧ db_type ≠ DbType.invalid then
          (DbType.invalid, fseekStart h)
        else
          let db_type := if h.file.hkMatch then DbType.hk else db_type
          (db_type, fseekStart h)

/-- Number of the four text-format sniff tests that succeed on a file. -/
def textMatchCount (f : HdbFile) : Nat :=
  (if f.nsrlMatch then 1 else 0) + (if f.md5sumMatch then 1 else 0) +
    (if f.encaseMatch then 1 else 0) + (if f.hkMatch then 1 else 0)

/-! ### Path resolution in `tsk_hdb_open` (lines 155-169) -/

/-- `TSTRRCHR(s, c)`: the suffix of `s` starting at the last occurrence of the
character `c`, or `none` when `c` does not occur (paths are modelled as
character lists; the C returns a pointer into the string, i.e. a suffix). -/
def strrchrSuffix (c : Char) : List Char → Option (List Char)
  | [] => none
  | a :: rest =>
    match strrchrSuffix c rest with
    | some suf => some suf
    | none => if a = c then some (a :: rest) else none

/-- The `"-md5.idx"` external-index suffix. -/
def md5IdxSuffix : List Char := "-md5.idx".toList

/-- The `"-sha1.idx"` external-index suffix. -/
def sha1IdxSuffix : List Char := "-sha1.idx".toList

/-- The suffix test of `tsk_hdb_open` lines 155-158: the path's tail from the
last `'-'` has length 8 or 9 and compares equal to `"-md5.idx"` or
`"-sha1.idx"`. -/
def file_path_is_idx_path (file_path : List Char) : Bool :=
  match strrchrSuffix '-' file_path with
  | some ext =>
    (ext.length = 8 ∨ ext.length = 9) ∧
      (ext = md5IdxSuffix ∨ ext = sha1IdxSuffix)
  | none => false

/-- The database path `tsk_hdb_open` derives from the caller's path (lines
155-169): when the suffix test succeeds, the first `ext - file_path`
characters of the path (the part before the last `'-'`); otherwise the whole
path.  (`db_path` comes from `tsk_malloc`, whose buffer the collaborating
allocator zero-fills, so the copied prefix is the resulting string.) -/
def hdb_db_path (file_path : List Char) : List Char :=
  match strrchrSuffix '-' file_path with
  | some ext =>
    if (ext.length = 8 ∨ ext.length = 9) ∧
        (ext = md5IdxSuffix ∨ ext = sha1IdxSuffix) then
      file_path.take (file_path.length - ext.length)
    else
      file_path
  | none => file_path

/-! ### The database handle and the caller-facing operations -/

/-- Backend operations a dispatch-layer call can invoke through the handle's
function pointers.  (Recorded so that theorems can state which backend
operation a caller-facing entry point actually calls.) -/
inductive BackendCall where
  | acceptsUpdates
  | addEntry
  | beginTransaction
  | commitTransaction
  | rollbackTransaction
deriving DecidableEq, Repr

/-- A `TSK_HDB_INFO` handle.  The backend function pointers are modelled by a
presence bit (`*_ptr`, false = NULL pointer) together with the value the call
would return (`*_result`; for the transaction operations and `add_entry`,
`true` means the backend returns nonzero, i.e. failure). -/
structure HdbHandle where
  db_type : DbType
  db_path : List Char
  display_name : String
  uses_external_indexes_result : Bool
  open_index_result : Nat → Nat
  accepts_updates_ptr : Bool
  accepts_updates_result : Bool
  add_entry_ptr : Bool
  add_entry_result : Bool
  begin_transaction_ptr : Bool
  begin_transaction_result : Bool
  commit_transaction_ptr : Bool
  commit_transaction_result : Bool
  rollback_transaction_ptr : Bool
  rollback_transaction_result : Bool
  transaction_in_progress : Bool

/-- Return value and deposited error of a `uint8_t`-returning query. -/
structure QueryResult where
  ret : Nat
  error : Option TskError

/-- Return value and deposited error of a string-returning accessor. -/
structure NameResult where
  ret : Option String
  error : Option TskError

/-- Outcome of a mutation entry point: return code, handle state after the
call, the backend operations invoked, and the error this dispatch layer
deposited (backend-internal failures set their own error and are not recorded
here). -/
structure MutResult where
  ret : Nat
  hdb : Option HdbHandle
  calls : List BackendCall
  error : Option TskError

/-- `tsk_hdb_get_display_name` (lines 260-271). -/
def tsk_hdb_get_display_name (hdb_info : Option HdbHandle) : NameResult :=
  match hdb_info with
  | none =>
    ⟨none, some ⟨ErrKind.arg, "tsk_hdb_get_display_name: NULL hdb_info"⟩⟩
  | some h => ⟨some h.display_name, none⟩

/-- `tsk_hdb_uses_external_indexes` (lines 273-284).  The error string for a
NULL handle is the one the source passes, which names
`tsk_hdb_get_display_name`. -/
def tsk_hdb_uses_external_indexes (hdb_info : Option HdbHandle) :
    QueryResult :=
  match hdb_info with
  | none =>
    ⟨0, some ⟨ErrKind.arg, "tsk_hdb_get_display_name: NULL hdb_info"⟩⟩
  | some h => ⟨if h.uses_external_indexes_result then 1 else 0, none⟩

/-- `tsk_hdb_has_idx` (lines 320-331): defined as "open_index succeeds". -/
def tsk_hdb_has_idx (hdb_info : Option HdbHandle) (htype : Nat) :
    QueryResult :=
  match hdb_info with
  | none => ⟨0, some ⟨ErrKind.arg, "tsk_hdb_has_idx: NULL hdb_info"⟩⟩
  | some h => ⟨if h.open_index_result htype = 0 then 1 else 0, none⟩

/-- `tsk_hdb_is_idx_only` (lines 342-353). -/
def tsk_hdb_is_idx_only (hdb_info : Option HdbHandle) : QueryResult :=
  match hdb_info with
  | none => ⟨0, some ⟨ErrKind.arg, "tsk_hdb_is_idx_only: NULL hdb_info"⟩⟩
  | some h => ⟨if h.db_type = DbType.idxonly then 1 else 0, none⟩

/-- `tsk_hdb_accepts_updates` (lines 464-484).  The error string for a NULL
`accepts_updates` pointer is the one the source passes, which says
`add_entry`. -/
def tsk_hdb_accepts_updates (hdb_info : Option HdbHandle) : QueryResult :=
  match hdb_info with
  | none =>
    ⟨0, some ⟨ErrKind.arg, "tsk_hdb_accepts_updates: NULL hdb_info"⟩⟩
  | some h =>
    if h.accepts_updates_ptr = false then
      ⟨0, some ⟨ErrKind.arg,
        "tsk_hdb_accepts_updates: NULL add_entry function ptr"⟩⟩
    else
      ⟨if h.accepts_updates_result then 1 else 0, none⟩

/-- `tsk_hdb_add_entry` (lines 497-526).  (The source's "operation not
supported" message also prints the numeric `db_type` via `%u`; the numerals
live in the header outside this file's source, so the message is modelled
without the number.) -/
def tsk_hdb_add_entry (hdb_info : Option HdbHandle)
    (_filename _md5 _sha1 _sha256 _comment : Option String) : MutResult :=
  match hdb_info with
  | none => ⟨1, none, [], some ⟨ErrKind.arg, "tsk_hdb_add_entry: NULL hdb_info"⟩⟩
  | some h =>
    if h.add_entry_ptr = false then
      ⟨1, some h, [],
        some ⟨ErrKind.arg, "tsk_hdb_add_entry: NULL add_entry function ptr"⟩⟩
    else if h.accepts_updates_result then
      ⟨if h.add_entry_result then 1 else 0, some h,
        [BackendCall.acceptsUpdates, BackendCall.addEntry], none⟩
    else
      ⟨1, some h, [BackendCall.acceptsUpdates],
        some ⟨ErrKind.proc,
          "tsk_hdb_add_entry: operation not supported for this database type"⟩⟩

/-- `tsk_hdb_begin_transaction` (lines 534-576). -/
def tsk_hdb_begin_transaction (hdb_info : Option HdbHandle) : MutResult :=
  match hdb_info with
  | none =>
    ⟨1, none, [],
      some ⟨ErrKind.arg, "tsk_hdb_begin_transaction: NULL hdb_info"⟩⟩
  | some h =>
    if h.begin_transaction_ptr = false then
      ⟨1, some h, [],
        some ⟨ErrKind.arg,
          "tsk_hdb_begin_transaction: NULL begin_transaction function ptr"⟩⟩
    else if h.accepts_updates_result then
      if h.transaction_in_progress = false then
        if h.begin_transaction_result then
          ⟨1, some h,
            [BackendCall.acceptsUpdates, BackendCall.beginTransaction], none⟩
        else
          ⟨0, some { h with transaction_in_progress := true },
            [BackendCall.acceptsUpdates, BackendCall.beginTransaction], none⟩
      else
        ⟨1, some h, [BackendCall.acceptsUpdates],
          some ⟨ErrKind.proc,
            "tsk_hdb_begin_transaction: transaction already begun"⟩⟩
    else
      ⟨1, some h, [BackendCall.acceptsUpdates],
        some ⟨ErrKind.proc,
          "tsk_hdb_begin_transaction: operation not supported for this database type"⟩⟩

/-- `tsk_hdb_commit_transaction` (lines 584-626). -/
def tsk_hdb_commit_transaction (hdb_info : Option HdbHandle) : MutResult :=
  match hdb_info with
  | none =>
    ⟨1, none, [],
      some ⟨ErrKind.arg, "tsk_hdb_commit_transaction: NULL hdb_info"⟩⟩
  | some h =>
    if h.commit_transaction_ptr = false then
      ⟨1, some h, [],
        some ⟨ErrKind.arg,
          "tsk_hdb_commit_transaction: NULL commit_transaction function ptr"⟩⟩
    else if h.accepts_updates_result then
      if h.transaction_in_progress then
        if h.commit_transaction_result then
          ⟨1, some h,
            [BackendCall.acceptsUpdates, BackendCall.commitTransaction], none⟩
        else
          ⟨0, some { h with transaction_in_progress := false },
            [BackendCall.acceptsUpdates, BackendCall.commitTransaction], none⟩
      else
        ⟨1, some h, [BackendCall.acceptsUpdates],
          some ⟨ErrKind.proc,
            "tsk_hdb_commit_transaction: transaction not begun"⟩⟩
    else
      ⟨1, some h, [BackendCall.acceptsUpdates],
        some ⟨ErrKind.proc,
          "tsk_hdb_commit_transaction: operation not supported for this database type"⟩⟩

/-- `tsk_hdb_rollback_transaction` (lines 634-676).  Note the source's active
branch (line 655) invokes `hdb_info->commit_transaction`, not
`hdb_info->rollback_transaction`, even though the NULL-pointer guard above it
checks the rollback pointer. -/
def tsk_hdb_rollback_transaction (hdb_info : Option HdbHandle) : MutResult :=
  match hdb_info with
  | none =>
    ⟨1, none, [],
      some ⟨ErrKind.arg, "tsk_hdb_rollback_transaction: NULL hdb_info"⟩⟩
  | some h =>
    if h.rollback_transaction_ptr = false then
      ⟨1, some h, [],
        some ⟨ErrKind.arg,
          "tsk_hdb_rollback_transaction: NULL rollback_transaction function ptr"⟩⟩
    else if h.accepts_updates_result then
      if h.transaction_in_progress then
        if h.commit_transaction_result then
          ⟨1, some h,
            [BackendCall.acceptsUpdates, BackendCall.commitTransaction], none⟩
        else
          ⟨0, some { h with transaction_in_progress := false },
            [BackendCall.acceptsUpdates, BackendCall.commitTransaction], none⟩
      else
        ⟨1, some h, [BackendCall.acceptsUpdates],
          some ⟨ErrKind.proc,
            "tsk_hdb_rollback_transaction: transaction not begun"⟩⟩
    else
      ⟨1, some h, [BackendCall.acceptsUpdates],
        some ⟨ErrKind.proc,
          "tsk_hdb_rollback_transaction: operation not supported for this database type"⟩⟩

/-- Handle states reachable, for a backend that does not accept updates, from
a freshly constructed handle (which has no transaction in progress) under the
four mutation entry points. -/
inductive ReachableNoUpd : HdbHandle → Prop where
  | init (h : HdbHandle) (hacc : h.accepts_updates_result = false)
      (hflag : h.transaction_in_progress = false) : ReachableNoUpd h
  | stepAdd (h h' : HdbHandle) (fn md5 sha1 sha256 cm : Option String)
      (hr : ReachableNoUpd h)
      (hs : (tsk_hdb_add_entry (some h) fn md5 sha1 sha256 cm).hdb = some h') :
      ReachableNoUpd h'
  | stepBegin (h h' : HdbHandle) (hr : ReachableNoUpd h)
      (hs : (tsk_hdb_begin_transaction (some h)).hdb = some h') :
      ReachableNoUpd h'
  | stepCommit (h h' : HdbHandle) (hr : ReachableNoUpd h)
      (hs : (tsk_hdb_commit_transaction (some h)).hdb = some h') :
      ReachableNoUpd h'
  | stepRollback (h h' : HdbHandle) (hr : ReachableNoUpd h)
      (hs : (tsk_hdb_rollback_transaction (some h)).hdb = some h') :
      ReachableNoUpd h'

/-! ### The open router `tsk_hdb_open` (lines 125-245) -/

/-- The external world `tsk_hdb_open` interacts with: whether `hdb_open_file`
succeeds on a path, the sniff outcomes of the file found at a path, and
whether each backend constructor returns a handle. -/
structure FileSys where
  opens : List Char → Bool
  contentOf : List Char → HdbFile
  backendOpenOk : DbType → Bool

/-- The part of a constructed database handle the open-router claims need. -/
structure OpenedDb where
  db_type : DbType
  db_path : List Char
deriving DecidableEq, Repr

/-- Outcome of `tsk_hdb_open`: the returned handle (or NULL), the error this
layer deposited, which backend constructor was invoked (if any), and the
router-acquired resources still held at return (`FILE` handles neither closed
nor passed to a constructor; unfreed router allocations). -/
structure OpenOutcome where
  result : Option OpenedDb
  error : Option TskError
  constructed : Option DbType
  leakedHandles : Nat
  leakedAllocs : Nat

/-- A backend constructor call (`nsrl_open` / `md5sum_open` / `encase_open` /
`hk_open` / `idxonly_open` / `sqlite_hdb_open`): the constructor takes
ownership of any file handle passed to it and returns a handle or NULL;
`db_path` is freed by the router afterwards (lines 240-242). -/
def backendConstruct (fs : FileSys) (ty : DbType) (db_path : List Char) :
    OpenOutcome :=
  { result := if fs.backendOpenOk ty then some ⟨ty, db_path⟩ else none
    error := none
    constructed := some ty
    leakedHandles := 0
    leakedAllocs := 0 }

/-- The `switch (db_type)` of `tsk_hdb_open` (lines 201-238).  `hDbOpen` says
whether the router holds an open `FILE` handle on `db_path` at this point;
the text-format constructors receive it, the SQLite case closes it first
(lines 229-231), and the index-only case never opened one. -/
def hdb_dispatch (fs : FileSys) (file_path db_path : List Char)
    (db_type : DbType) (hDbOpen : Bool) : OpenOutcome :=
  match db_type with
  | DbType.nsrl => backendConstruct fs DbType.nsrl db_path
  | DbType.md5sum => backendConstruct fs DbType.md5sum db_path
  | DbType.encase => backendConstruct fs DbType.encase db_path
  | DbType.hk => backendConstruct fs DbType.hk db_path
  | DbType.idxonly =>
    if fs.opens file_path then
      -- hIdx is opened to verify the index exists, then fclosed (line 224)
      backendConstruct fs DbType.idxonly db_path
    else
      { result := none
        error := some ⟨ErrKind.open_failure,
          "tsk_hdb_open: database is index only, failed to open index"⟩
        constructed := none
        leakedHandles := 0
        leakedAllocs := 0 }
  | DbType.sqlite => backendConstruct fs DbType.sqlite db_path
  | DbType.invalid =>
    -- unreachable from tsk_hdb_open; the switch breaks and NULL is returned
    { result := none, error := none, constructed := none
      leakedHandles := if hDbOpen then 1 else 0, leakedAllocs := 0 }

/-- `tsk_hdb_open` (lines 125-245): path resolution, type detection with the
index-only fallbacks, and dispatch to the backend constructor.  On the
unknown-type error path (lines 176-182) the source frees `db_path` but never
closes the `FILE` handle it opened, which the outcome records as a leaked
handle. -/
def tsk_hdb_open (fs : FileSys) (eff : SniffEffects)
    (file_path : Option (List Char)) (idxonly_flag : Bool) : OpenOutcome :=
  match file_path with
  | none =>
    { result := none
      error := some ⟨ErrKind.arg, "tsk_hdb_open: NULL file path"⟩
      constructed := none, leakedHandles := 0, leakedAllocs := 0 }
  | some fp =>
    let db_path := hdb_db_path fp
    if idxonly_flag = false then
      if fs.opens db_path then
        let db_type := (hdb_determine_db_type eff ⟨fs.contentOf db_path, 0⟩).1
        if db_type = DbType.invalid then
          { result := none
            error := some ⟨ErrKind.unktype,
              "tsk_hdb_open: error determining hash database type"⟩
            constructed := none, leakedHandles := 1, leakedAllocs := 0 }
        else
          hdb_dispatch fs fp db_path db_type true
      else if file_path_is_idx_path fp then
        hdb_dispatch fs fp db_path DbType.idxonly false
      else
        { result := none
          error := some ⟨ErrKind.open_failure, "tsk_hdb_open: failed to open"⟩
          constructed := none, leakedHandles := 0, leakedAllocs := 0 }
    else
      hdb_dispatch fs fp db_path DbType.idxonly false

/-- A concrete update-capable handle (relational-store backend) with a
transaction in progress, all optional function pointers present, and backend
operations that succeed. -/
def updActiveHandle : HdbHandle :=
  { db_type := DbType.sqlite
    db_path := "set.kdb".toList
    display_name := "set.kdb"
    uses_external_indexes_result := false
    open_index_result := fun _ => 1
    accepts_updates_ptr := true
    accepts_updates_result := true
    add_entry_ptr := true
    add_entry_result := false
    begin_transaction_ptr := true
    begin_transaction_result := false
    commit_transaction_ptr := true
    commit_transaction_result := false
    rollback_transaction_ptr := true
    rollback_transaction_result := false
    transaction_in_progress := true }

/-- The same update-capable handle with no transaction in progress. -/
def updIdleHandle : HdbHandle :=
  { updActiveHandle with transaction_in_progress := false }

/-- A concrete handle whose backend does not accept updates (a text-format
database), with the optional pointers present so that the capability check
itself is what rejects mutation. -/
def noUpdHandle : HdbHandle :=
  { updActiveHandle with
      db_type := DbType.nsrl
      accepts_updates_result := false
      transaction_in_progress := false }

theorem strrchrSuffix_eq_none_of_not_mem {c : Char} {l : List Char}
    (h : c ∉ l) : strrchrSuffix c l = none := by
  induction l with
  | nil => rfl
  | cons a rest ih =>
    simp only [List.mem_cons, not_or] at h
    simp [strrchrSuffix, ih h.2, h.1, Ne.symm h.1]

theorem strrchrSuffix_append_of_head {t suf : List Char} {c : Char}
    (hhead : ∃ r, suf = c :: r ∧ c ∉ r) :
    strrchrSuffix c (t ++ suf) = some suf := by
  induction t with
  | nil =>
    obtain ⟨r, hsuf, hmem⟩ := hhead
    subst hsuf
    simp [strrchrSuffix, strrchrSuffix_eq_none_of_not_mem hmem]
  | cons a t ih =>
    simp only [List.cons_append, strrchrSuffix, List.append_eq, ih]

theorem strrchrSuffix_isSuffix {c : Char} {l suf : List Char}
    (h : strrchrSuffix c l = some suf) : ∃ t, l = t ++ suf := by
  induction l with
  | nil => simp [strrchrSuffix] at h
  | cons a rest ih =>
    simp only [strrchrSuffix] at h
    cases hrec : strrchrSuffix c rest with
    | some s =>
      rw [hrec] at h
      simp only [Option.some.injEq] at h
      obtain ⟨t, ht⟩ := ih (by rw [hrec, h])
      exact ⟨a :: t, by simp [ht]⟩
    | none =>
      rw [hrec] at h
      by_cases hac : a = c
      · rw [if_pos hac] at h
        exact ⟨[], by rw [List.nil_append]; exact Option.some.inj h⟩
      · rw [if_neg hac] at h
        exact absurd h (by simp)

/-- C5: a caller path ending in `"-md5.idx"` or `"-sha1.idx"` resolves to the
path with that suffix removed; every other path resolves to itself
unchanged. -/
theorem hdb_db_path_spec (p : List Char) :
    (∀ t : List Char, p = t ++ md5IdxSuffix ∨ p = t ++ sha1IdxSuffix →
      hdb_db_path p = t) ∧
    ((¬ ∃ t : List Char, p = t ++ md5IdxSuffix ∨ p = t ++ sha1IdxSuffix) →
      hdb_db_path p = p) := by
  constructor
  · rintro t (hp | hp) <;> subst hp
    · have hlast : strrchrSuffix '-' (t ++ md5IdxSuffix) = some md5IdxSuffix :=
        strrchrSuffix_append_of_head ⟨"md5.idx".toList, by decide, by decide⟩
      simp only [hdb_db_path, hlast]
      rw [if_pos ⟨Or.inl (by decide), Or.inl trivial⟩]
      have hlen : (t ++ md5IdxSuffix).length - md5IdxSuffix.length =
          t.length := by simp
      rw [hlen]
      exact List.take_left t md5IdxSuffix
    · have hlast : strrchrSuffix '-' (t ++ sha1IdxSuffix) =
          some sha1IdxSuffix :=
        strrchrSuffix_append_of_head ⟨"sha1.idx".toList, by decide, by decide⟩
      simp only [hdb_db_path, hlast]
      rw [if_pos ⟨Or.inr (by decide), Or.inr trivial⟩]
      have hlen : (t ++ sha1IdxSuffix).length - sha1IdxSuffix.length =
          t.length := by simp
      rw [hlen]
      exact List.take_left t sha1IdxSuffix
  · intro hno
    unfold hdb_db_path
    split
    · rename_i ext hlast
      have hcond : ¬((ext.length = 8 ∨ ext.length = 9) ∧
          (ext = md5IdxSuffix ∨ ext = sha1IdxSuffix)) := by
        intro hc
        obtain ⟨t, ht⟩ := strrchrSuffix_isSuffix hlast
        exact hno ⟨t, hc.2.imp (fun hm => ht.trans (by rw [hm]))
          (fun hm => ht.trans (by rw [hm]))⟩
      rw [if_neg hcond]
    · rfl

/-- Witness for C5: the concrete path `"set-md5.idx"` resolves to `"set"`. -/
theorem hdb_db_path_spec_witness :
    hdb_db_path "set-md5.idx".toList = "set".toList :=
  (hdb_db_path_spec "set-md5.idx".toList).1 "set".toList (Or.inl (by decide))

/-- C1: on a file whose relational-store (SQLite) signature does not match, so
that the text-format stage of `hdb_determine_db_type` is reached: if more than
one of the four text-format sniff tests succeeds the detector returns
`TSK_HDB_DBTYPE_INVALID_ID`; if exactly one succeeds it returns that format's
identifier; if none succeed it returns `TSK_HDB_DBTYPE_INVALID_ID`. -/
theorem hdb_determine_db_type_ambiguity (eff : SniffEffects) (h0 : FileHandle)
    (hsq : h0.file.isSqliteFile = false) :
    (2 ≤ textMatchCount h0.file →
      (hdb_determine_db_type eff h0).1 = DbType.invalid) ∧
    (textMatchCount h0.file = 1 →
      ((h0.file.nsrlMatch = true →
        (hdb_determine_db_type eff h0).1 = DbType.nsrl) ∧
       (h0.file.md5sumMatch = true →
        (hdb_determine_db_type eff h0).1 = DbType.md5sum) ∧
       (h0.file.encaseMatch = true →
        (hdb_determine_db_type eff h0).1 = DbType.encase) ∧
       (h0.file.hkMatch = true →
        (hdb_determine_db_type eff h0).1 = DbType.hk))) ∧
    (textMatchCount h0.file = 0 →
      (hdb_determine_db_type eff h0).1 = DbType.invalid) := by
  obtain ⟨⟨sq, a, b, c, d⟩, p⟩ := h0
  simp only at hsq
  subst hsq
  cases a <;> cases b <;> cases c <;> cases d <;>
    simp [hdb_determine_db_type, textMatchCount, fseekStart]

/-- Witness for C1 at a concrete ambiguous file: both the NSRL and the md5sum
sniff tests succeed, and detection returns the invalid identifier. -/
theorem hdb_determine_db_type_ambiguity_witness :
    (hdb_determine_db_type ⟨0, 0, 0, 0, 0⟩
      ⟨⟨false, true, true, false, false⟩, 0⟩).1 = DbType.invalid :=
  (hdb_determine_db_type_ambiguity ⟨0, 0, 0, 0, 0⟩
    ⟨⟨false, true, true, false, false⟩, 0⟩ rfl).1 (by decide)

/-- C7: on every exit path of `hdb_determine_db_type` (relational-store match,
ambiguous rejection, single text-format match, and no match) the stream
position of the file handle is left at the start of the file, whatever
positions the individual sniff tests left it at. -/
theorem hdb_determine_db_type_restores_position (eff : SniffEffects)
    (h0 : FileHandle) : ((hdb_determine_db_type eff h0).2).pos = 0 := by
  obtain ⟨⟨sq, a, b, c, d⟩, p⟩ := h0
  cases sq <;> cases a <;> cases b <;> cases c <;> cases d <;>
    simp [hdb_determine_db_type, fseekStart]

/-- C2 (evaluation of the code at the failing input): on an update-capable
handle with a transaction in progress, every optional pointer present, and a
backend whose commit succeeds, `tsk_hdb_rollback_transaction` invokes the
backend commit operation and never the backend rollback operation, then
clears `transaction_in_progress` and returns 0. -/
theorem tsk_hdb_rollback_invokes_commit :
    (tsk_hdb_rollback_transaction (some updActiveHandle)).calls =
      [BackendCall.acceptsUpdates, BackendCall.commitTransaction] ∧
    BackendCall.rollbackTransaction ∉
      (tsk_hdb_rollback_transaction (some updActiveHandle)).calls ∧
    (tsk_hdb_rollback_transaction (some updActiveHandle)).ret = 0 ∧
    (tsk_hdb_rollback_transaction (some updActiveHandle)).hdb =
      some { updActiveHandle with transaction_in_progress := false } :=
  ⟨rfl, by decide, rfl, rfl⟩

/-- C4: for an update-capable handle, `begin` with a transaction already in
progress returns 1 with an error deposited and the handle (in particular the
`transaction_in_progress` flag) unchanged; `commit` and `rollback` with no
transaction in progress return 1 with an error deposited and the handle
unchanged. -/
theorem transaction_state_misuse_rejected (h : HdbHandle)
    (hacc : h.accepts_updates_result = true) :
    (h.transaction_in_progress = true →
      (tsk_hdb_begin_transaction (some h)).ret = 1 ∧
      (tsk_hdb_begin_transaction (some h)).error.isSome = true ∧
      (tsk_hdb_begin_transaction (some h)).hdb = some h) ∧
    (h.transaction_in_progress = false →
      ((tsk_hdb_commit_transaction (some h)).ret = 1 ∧
       (tsk_hdb_commit_transaction (some h)).error.isSome = true ∧
       (tsk_hdb_commit_transaction (some h)).hdb = some h) ∧
      ((tsk_hdb_rollback_transaction (some h)).ret = 1 ∧
       (tsk_hdb_rollback_transaction (some h)).error.isSome = true ∧
       (tsk_hdb_rollback_transaction (some h)).hdb = some h)) := by
  constructor
  · intro hip
    unfold tsk_hdb_begin_transaction
    cases hb : h.begin_transaction_ptr <;> simp [hacc, hip, hb]
  · intro hip
    constructor
    · unfold tsk_hdb_commit_transaction
      cases hc : h.commit_transaction_ptr <;> simp [hacc, hip, hc]
    · unfold tsk_hdb_rollback_transaction
      cases hr : h.rollback_transaction_ptr <;> simp [hacc, hip, hr]

/-- Witness for C4 at concrete handles: a second `begin` on an active handle
and a `commit`/`rollback` on an idle handle all return 1 with the state
unchanged. -/
theorem transaction_state_misuse_rejected_witness :
    (tsk_hdb_begin_transaction (some updActiveHandle)).ret = 1 ∧
    (tsk_hdb_begin_transaction (some updActiveHandle)).hdb =
      some updActiveHandle ∧
    (tsk_hdb_commit_transaction (some updIdleHandle)).ret = 1 ∧
    (tsk_hdb_rollback_transaction (some updIdleHandle)).ret = 1 :=
  ⟨((transaction_state_misuse_rejected updActiveHandle rfl).1 rfl).1,
   ((transaction_state_misuse_rejected updActiveHandle rfl).1 rfl).2.2,
   (((transaction_state_misuse_rejected updIdleHandle rfl).2 rfl).1).1,
   (((transaction_state_misuse_rejected updIdleHandle rfl).2 rfl).2).1⟩

/-- C3: each mutation entry point checks the accepts-updates capability and,
when it is absent (capability query returns false, pointer itself present),
returns 1 with a PROCEDURE error, leaves the handle untouched, and never
invokes the mutating backend operation; consequently every state reachable by
the mutation entry points from a freshly constructed handle of a
non-accepting backend has `transaction_in_progress = false`. -/
theorem mutation_capability_gate :
    (∀ (h : HdbHandle) (fn md5 sha1 sha256 cm : Option String),
      h.accepts_updates_result = false → h.add_entry_ptr = true →
      (tsk_hdb_add_entry (some h) fn md5 sha1 sha256 cm).ret = 1 ∧
      (tsk_hdb_add_entry (some h) fn md5 sha1 sha256 cm).error =
        some ⟨ErrKind.proc,
          "tsk_hdb_add_entry: operation not supported for this database type"⟩ ∧
      (tsk_hdb_add_entry (some h) fn md5 sha1 sha256 cm).hdb = some h ∧
      BackendCall.addEntry ∉
        (tsk_hdb_add_entry (some h) fn md5 sha1 sha256 cm).calls) ∧
    (∀ h : HdbHandle,
      h.accepts_updates_result = false → h.begin_transaction_ptr = true →
      (tsk_hdb_begin_transaction (some h)).ret = 1 ∧
      (tsk_hdb_begin_transaction (some h)).error =
        some ⟨ErrKind.proc,
          "tsk_hdb_begin_transaction: operation not supported for this database type"⟩ ∧
      (tsk_hdb_begin_transaction (some h)).hdb = some h ∧
      BackendCall.beginTransaction ∉
        (tsk_hdb_begin_transaction (some h)).calls) ∧
    (∀ h : HdbHandle,
      h.accepts_updates_result = false → h.commit_transaction_ptr = true →
      (tsk_hdb_commit_transaction (some h)).ret = 1 ∧
      (tsk_hdb_commit_transaction (some h)).error =
        some ⟨ErrKind.proc,
          "tsk_hdb_commit_transaction: operation not supported for this database type"⟩ ∧
      (tsk_hdb_commit_transaction (some h)).hdb = some h ∧
      BackendCall.commitTransaction ∉
        (tsk_hdb_commit_transaction (some h)).calls) ∧
    (∀ h : HdbHandle,
      h.accepts_updates_result = false → h.rollback_transaction_ptr = true →
      (tsk_hdb_rollback_transaction (some h)).ret = 1 ∧
      (tsk_hdb_rollback_transaction (some h)).error =
        some ⟨ErrKind.proc,
          "tsk_hdb_rollback_transaction: operation not supported for this database type"⟩ ∧
      (tsk_hdb_rollback_transaction (some h)).hdb = some h ∧
      BackendCall.commitTransaction ∉
        (tsk_hdb_rollback_transaction (some h)).calls ∧
      BackendCall.rollbackTransaction ∉
        (tsk_hdb_rollback_transaction (some h)).calls) ∧
    (∀ h : HdbHandle, ReachableNoUpd h →
      h.transaction_in_progress = false) := by
  have keyInv : ∀ h : HdbHandle, ReachableNoUpd h →
      h.accepts_updates_result = false ∧
        h.transaction_in_progress = false := by
    intro h hr
    induction hr with
    | init h hacc hflag => exact ⟨hacc, hflag⟩
    | stepAdd h h' fn md5 sha1 sha256 cm hr hs ih =>
      have heq : (tsk_hdb_add_entry (some h) fn md5 sha1 sha256 cm).hdb =
          some h := by
        unfold tsk_hdb_add_entry
        cases hp : h.add_entry_ptr <;> simp [hp, ih.1]
      rw [heq] at hs
      cases hs
      exact ih
    | stepBegin h h' hr hs ih =>
      have heq : (tsk_hdb_begin_transaction (some h)).hdb = some h := by
        unfold tsk_hdb_begin_transaction
        cases hp : h.begin_transaction_ptr <;> simp [hp, ih.1]
      rw [heq] at hs
      cases hs
      exact ih
    | stepCommit h h' hr hs ih =>
      have heq : (tsk_hdb_commit_transaction (some h)).hdb = some h := by
        unfold tsk_hdb_commit_transaction
        cases hp : h.commit_transaction_ptr <;> simp [hp, ih.1]
      rw [heq] at hs
      cases hs
      exact ih
    | stepRollback h h' hr hs ih =>
      have heq : (tsk_hdb_rollback_transaction (some h)).hdb = some h := by
        unfold tsk_hdb_rollback_transaction
        cases hp : h.rollback_transaction_ptr <;> simp [hp, ih.1]
      rw [heq] at hs
      cases hs
      exact ih
  refine ⟨?_, ?_, ?_, ?_, fun h hr => (keyInv h hr).2⟩
  · intro h fn md5 sha1 sha256 cm hacc hptr
    unfold tsk_hdb_add_entry
    simp [hacc, hptr]
  · intro h hacc hptr
    unfold tsk_hdb_begin_transaction
    simp [hacc, hptr]
  · intro h hacc hptr
    unfold tsk_hdb_commit_transaction
    simp [hacc, hptr]
  · intro h hacc hptr
    unfold tsk_hdb_rollback_transaction
    simp [hacc, hptr]

/-- Witness for C3 at a concrete non-accepting handle: `add_entry` returns 1,
`begin_transaction` never calls the backend begin operation, and the initial
state is covered by the reachability invariant. -/
theorem mutation_capability_gate_witness :
    (tsk_hdb_add_entry (some noUpdHandle) none none none none none).ret = 1 ∧
    BackendCall.beginTransaction ∉
      (tsk_hdb_begin_transaction (some noUpdHandle)).calls ∧
    noUpdHandle.transaction_in_progress = false :=
  ⟨(mutation_capability_gate.1 noUpdHandle none none none none none
      rfl rfl).1,
   (mutation_capability_gate.2.1 noUpdHandle rfl rfl).2.2.2,
   mutation_capability_gate.2.2.2.2 noUpdHandle
     (ReachableNoUpd.init noUpdHandle rfl rfl)⟩

/-- C9 (evaluation of the code at the failing input): called with a NULL
handle, `tsk_hdb_uses_external_indexes` deposits the error string that names
`tsk_hdb_get_display_name` — the very string `tsk_hdb_get_display_name`
itself deposits — rather than a distinct string naming itself. -/
theorem tsk_hdb_uses_external_indexes_error_string_not_distinct :
    (tsk_hdb_uses_external_indexes none).error =
      some ⟨ErrKind.arg, "tsk_hdb_get_display_name: NULL hdb_info"⟩ ∧
    (tsk_hdb_uses_external_indexes none).error =
      (tsk_hdb_get_display_name none).error :=
  ⟨rfl, rfl⟩

/-- C10: on a NULL handle the four boolean queries all return 0 while
depositing an error, and a valid handle whose true answer is "no" also
returns 0 but deposits no error — the return value alone cannot distinguish
the argument error from a legitimate negative answer. -/
theorem null_handle_queries_return_zero :
    (tsk_hdb_uses_external_indexes none).ret = 0 ∧
    (tsk_hdb_has_idx none 1).ret = 0 ∧
    (tsk_hdb_is_idx_only none).ret = 0 ∧
    (tsk_hdb_accepts_updates none).ret = 0 ∧
    (tsk_hdb_uses_external_indexes none).error.isSome = true ∧
    (tsk_hdb_has_idx none 1).error.isSome = true ∧
    (tsk_hdb_is_idx_only none).error.isSome = true ∧
    (tsk_hdb_accepts_updates none).error.isSome = true ∧
    (tsk_hdb_uses_external_indexes (some noUpdHandle)).ret = 0 ∧
    (tsk_hdb_has_idx (some noUpdHandle) 1).ret = 0 ∧
    (tsk_hdb_is_idx_only (some noUpdHandle)).ret = 0 ∧
    (tsk_hdb_accepts_updates (some noUpdHandle)).ret = 0 ∧
    (tsk_hdb_uses_external_indexes (some noUpdHandle)).error = none ∧
    (tsk_hdb_has_idx (some noUpdHandle) 1).error = none ∧
    (tsk_hdb_is_idx_only (some noUpdHandle)).error = none ∧
    (tsk_hdb_accepts_updates (some noUpdHandle)).error = none :=
  ⟨rfl, rfl, rfl, rfl, rfl, rfl, rfl, rfl, rfl, rfl, rfl, rfl, rfl, rfl,
   rfl, rfl⟩

/-- C6: with the index-only flag off and the canonical database path failing
to open, `tsk_hdb_open` constructs an IndexOnly database iff the supplied
path carried an index suffix and the literal index file itself opens; a
suffix-less path fails with an open error, and an unopenable index file fails
with an open error without any backend being constructed. -/
theorem tsk_hdb_open_idxonly_fallback (fs : FileSys) (eff : SniffEffects)
    (p : List Char) (hfail : fs.opens (hdb_db_path p) = false) :
    ((tsk_hdb_open fs eff (some p) false).constructed = some DbType.idxonly ↔
      (file_path_is_idx_path p = true ∧ fs.opens p = true)) ∧
    (file_path_is_idx_path p = false →
      (tsk_hdb_open fs eff (some p) false).result = none ∧
      (tsk_hdb_open fs eff (some p) false).error =
        some ⟨ErrKind.open_failure, "tsk_hdb_open: failed to open"⟩ ∧
      (tsk_hdb_open fs eff (some p) false).constructed = none) ∧
    (file_path_is_idx_path p = true → fs.opens p = false →
      (tsk_hdb_open fs eff (some p) false).result = none ∧
      (tsk_hdb_open fs eff (some p) false).error =
        some ⟨ErrKind.open_failure,
          "tsk_hdb_open: database is index only, failed to open index"⟩ ∧
      (tsk_hdb_open fs eff (some p) false).constructed = none) ∧
    (file_path_is_idx_path p = true → fs.opens p = true →
      fs.backendOpenOk DbType.idxonly = true →
      (tsk_hdb_open fs eff (some p) false).result =
        some ⟨DbType.idxonly, hdb_db_path p⟩) := by
  cases hidx : file_path_is_idx_path p <;> cases hop : fs.opens p <;>
    cases hbk : fs.backendOpenOk DbType.idxonly <;>
      simp [tsk_hdb_open, hdb_dispatch, backendConstruct, hfail, hidx, hop,
        hbk]

/-- Witness for C6: opening the path `"set-md5.idx"` on a file system where
only that literal index file exists yields an IndexOnly database whose
database path is `"set"`. -/
theorem tsk_hdb_open_idxonly_fallback_witness :
    (tsk_hdb_open
        ⟨fun q => decide (q = "set-md5.idx".toList),
         fun _ => ⟨false, false, false, false, false⟩, fun _ => true⟩
        ⟨0, 0, 0, 0, 0⟩ (some "set-md5.idx".toList) false).result =
      some ⟨DbType.idxonly, "set".toList⟩ :=
  ((tsk_hdb_open_idxonly_fallback
      ⟨fun q => decide (q = "set-md5.idx".toList),
       fun _ => ⟨false, false, false, false, false⟩, fun _ => true⟩
      ⟨0, 0, 0, 0, 0⟩ "set-md5.idx".toList (by decide)).2.2.2
    (by decide) (by decide) (by decide)).trans (by decide)

/-- C8 (evaluation of the code at the failing input): opening a readable file
that matches no format signature makes `tsk_hdb_open` return NULL with an
UNKNOWN_TYPE error while the `FILE` handle the router opened on the file is
still open at return (the source frees `db_path` on that path but never
closes `hDb`); the allocated path buffer is freed. -/
theorem tsk_hdb_open_leaks_handle_on_unknown_type :
    (tsk_hdb_open
        ⟨fun q => decide (q = "mystery.db".toList),
         fun _ => ⟨false, false, false, false, false⟩, fun _ => true⟩
        ⟨0, 0, 0, 0, 0⟩ (some "mystery.db".toList) false).result = none ∧
    (tsk_hdb_open
        ⟨fun q => decide (q = "mystery.db".toList),
         fun _ => ⟨false, false, false, false, false⟩, fun _ => true⟩
        ⟨0, 0, 0, 0, 0⟩ (some "mystery.db".toList) false).error =
      some ⟨ErrKind.unktype,
        "tsk_hdb_open: error determining hash database type"⟩ ∧
    (tsk_hdb_open
        ⟨fun q => decide (q = "mystery.db".toList),
         fun _ => ⟨false, false, false, false, false⟩, fun _ => true⟩
        ⟨0, 0, 0, 0, 0⟩ (some "mystery.db".toList) false).leakedHandles = 1 ∧
    (tsk_hdb_open
        ⟨fun q => decide (q = "mystery.db".toList),
         fun _ => ⟨false, false, false, false, false⟩, fun _ => true⟩
        ⟨0, 0, 0, 0, 0⟩ (some "mystery.db".toList) false).leakedAllocs = 0 :=
  ⟨rfl, rfl, rfl, rfl⟩

end TskHashDb
